import Mathlib

/-!
Verification of the policy logic of the hospital IT reporting system:
the compliance-status derivation (`getComplianceStatus` in
`ComplianceManagement.tsx`), the two database triggers
(`update_next_maintenance_date` and `check_request_escalation` in the
Supabase migration), and the document-store write path
(`requestService.createRequest` in the Firestore services module).
-/

namespace HospitalIT

/-- Compliance status values returned by `getComplianceStatus`. -/
inductive ComplianceStatus
  | valid
  | pending_renewal
  | expired
deriving DecidableEq, Repr

/-- Milliseconds per day, the unit `date-fns.addDays` advances a JS `Date` by. -/
def msPerDay : Int := 86400000

/-- `addDays(t, k)` from date-fns: advance the instant `t` by `k` whole days. -/
def addDays (t : Int) (k : Int) : Int := t + k * msPerDay

/-- `getComplianceStatus` from `ComplianceManagement.tsx`: instants are
milliseconds; `none` models a null/empty `expiry_date`.  The source reads
`now` via `new Date()`; here it is the explicit second argument. -/
def getComplianceStatus (expiryDate : Option Int) (now : Int) : ComplianceStatus :=
  match expiryDate with
  | none => .valid
  | some expiry =>
    if expiry < now then .expired
    else if expiry < addDays now 30 then .pending_renewal
    else .valid

/-- Civil date (year ≥ 1, month 1..12, day 1..) to an absolute day count
(days since 0000-03-01, proleptic Gregorian), so that adding `n` calendar
days is adding `n` to the count.  Standard days-from-civil computation. -/
def daysFromCivil (y m d : Nat) : Int :=
  let yAdj := if m ≤ 2 then y - 1 else y
  let era := yAdj / 400
  let yoe := yAdj - era * 400
  let mp := if m > 2 then m - 3 else m + 9
  let doy := (153 * mp + 2) / 5 + (d - 1)
  let doe := yoe * 365 + yoe / 4 - yoe / 100 + doy
  era * 146097 + doe

/-- A row of `equipment_types` as read by the maintenance trigger. -/
structure EquipmentType where
  id : Nat
  maintenance_interval_days : Int
deriving DecidableEq, Repr

/-- A row of `devices` as seen by the `BEFORE INSERT OR UPDATE` trigger
(`NEW`); dates are absolute day counts. -/
structure DeviceRow where
  equipment_type_id : Option Nat
  last_maintenance_date : Option Int
  next_maintenance_date : Option Int
deriving DecidableEq, Repr

/-- `SELECT ... FROM equipment_types et WHERE et.id = tid`: the first (only)
matching row, if any. -/
def etLookup (ets : List EquipmentType) (tid : Nat) : Option EquipmentType :=
  (ets.filter (fun et => et.id == tid)).head?

/-- `update_next_maintenance_date()` trigger function from the migration:
if `NEW.equipment_type_id` is not null, set `NEW.next_maintenance_date` to
`COALESCE(NEW.last_maintenance_date, CURRENT_DATE) + maintenance_interval_days`
days; a `SELECT INTO` that finds no row leaves the target NULL (plpgsql). -/
def update_next_maintenance_date (ets : List EquipmentType) (current_date : Int)
    (new : DeviceRow) : DeviceRow :=
  match new.equipment_type_id with
  | none => new
  | some tid =>
    match etLookup ets tid with
    | none => { new with next_maintenance_date := none }
    | some et =>
      let nd := new.last_maintenance_date.getD current_date + et.maintenance_interval_days
      { new with next_maintenance_date := some nd }

/-- Urgency levels of a request (`urgency_level` column). -/
inductive UrgencyLevel
  | routine
  | urgent
  | emergency
  | critical
deriving DecidableEq, Repr

/-- Request priorities on the ordered scale low < medium < high < urgent. -/
inductive Priority
  | low
  | medium
  | high
  | urgent
deriving DecidableEq, Repr

/-- Rank of a priority on the ordered scale. -/
def Priority.rank : Priority → Nat
  | .low => 0
  | .medium => 1
  | .high => 2
  | .urgent => 3

/-- A row of `departments` as read by the escalation trigger's subquery. -/
structure Department where
  id : Nat
  is_critical : Bool
deriving DecidableEq, Repr

/-- A row of `requests` as seen by the escalation trigger (`NEW`). -/
structure RequestRow where
  urgency_level : UrgencyLevel
  priority : Priority
  patient_impact : Bool
  department_id : Nat
deriving DecidableEq, Repr

/-- First IF of `check_request_escalation()`: emergency or critical urgency
forces priority to `urgent`. -/
def escalatePriority (new : RequestRow) : RequestRow :=
  if new.urgency_level = .emergency ∨ new.urgency_level = .critical then
    { new with priority := .urgent }
  else new

/-- `NEW.department_id IN (SELECT id FROM departments WHERE is_critical = true)`. -/
def deptIsCritical (departments : List Department) (did : Nat) : Bool :=
  departments.any (fun dep => dep.is_critical && dep.id == did)

/-- Second IF of `check_request_escalation()`: a critical department forces
`patient_impact` to true. -/
def setPatientImpact (departments : List Department) (new : RequestRow) : RequestRow :=
  if deptIsCritical departments new.department_id then
    { new with patient_impact := true }
  else new

/-- `check_request_escalation()` trigger function from the migration:
first the urgency rule, then the patient-impact rule, both on `NEW`. -/
def check_request_escalation (departments : List Department) (new : RequestRow) : RequestRow :=
  setPatientImpact departments (escalatePriority new)

/-- Field values of a Firestore document, as relevant here. -/
inductive Value
  | str (s : String)
  | boolean (b : Bool)
  | time (t : Int)
deriving DecidableEq, Repr

/-- A JS object literal / Firestore document: ordered field bindings where a
later binding for the same key overrides an earlier one (spread semantics). -/
abbrev Doc := List (String × Value)

/-- Field lookup with JS object-literal semantics: the last binding wins. -/
def Doc.get : Doc → String → Option Value
  | [], _ => none
  | (k, v) :: rest, key =>
    match Doc.get rest key with
    | some v' => some v'
    | none => if k == key then some v else none

/-- `requestService.createRequest` from the Firestore services module:
`addDoc(requestsRef, { ...requestData, status: 'pending',
createdAt: serverTimestamp(), updatedAt: serverTimestamp() })`.
`now` is the server timestamp. -/
def createRequest (requestData : Doc) (now : Int) : Doc :=
  requestData ++
    [("status", Value.str "pending"), ("createdAt", Value.time now),
     ("updatedAt", Value.time now)]

/-- C1: `getComplianceStatus` implements exactly the four-way case analysis:
absent expiry is `valid`; an expiry before `now` is `expired`; an expiry in
the 30-day renewal window is `pending_renewal`; any later expiry is `valid`. -/
theorem compliance_status_cases (now : Int) :
    getComplianceStatus none now = .valid ∧
    (∀ x : Int, x < now → getComplianceStatus (some x) now = .expired) ∧
    (∀ x : Int, now ≤ x → x < addDays now 30 →
      getComplianceStatus (some x) now = .pending_renewal) ∧
    (∀ x : Int, addDays now 30 ≤ x → getComplianceStatus (some x) now = .valid) := by
  refine ⟨rfl, ?_, ?_, ?_⟩ <;> intro x <;> intros <;>
    simp only [getComplianceStatus, addDays, msPerDay] at * <;>
    repeat' split
  all_goals first | rfl | omega

/-- Closed instance of `compliance_status_cases` at `now = 0`, one input in
each of the four cases. -/
theorem compliance_status_cases_witness :
    getComplianceStatus none 0 = .valid ∧
    getComplianceStatus (some (-1)) 0 = .expired ∧
    getComplianceStatus (some 5) 0 = .pending_renewal ∧
    getComplianceStatus (some (30 * 86400000)) 0 = .valid :=
  ⟨(compliance_status_cases 0).1,
   (compliance_status_cases 0).2.1 (-1) (by decide),
   (compliance_status_cases 0).2.2.1 5 (by decide) (by decide),
   (compliance_status_cases 0).2.2.2 (30 * 86400000) (by decide)⟩

/-- C7: `getComplianceStatus` is deterministic and pure — any two calls with
equal expiry dates and equal evaluation instants return equal statuses, the
result depending on nothing but those two arguments. -/
theorem compliance_status_deterministic (e e' : Option Int) (n n' : Int)
    (h1 : e = e') (h2 : n = n') :
    getComplianceStatus e n = getComplianceStatus e' n' := by
  subst h1; subst h2; rfl

/-- Closed instance of `compliance_status_deterministic`. -/
theorem compliance_status_deterministic_witness :
    getComplianceStatus (some 7) 5 = getComplianceStatus (some 7) 5 :=
  compliance_status_deterministic (some 7) (some 7) 5 5 rfl rfl

/-- C8: when the device row has no equipment type, the maintenance trigger
returns `NEW` unchanged — `next_maintenance_date` is neither recomputed nor
cleared. -/
theorem maintenance_null_type_frame (ets : List EquipmentType) (cur : Int)
    (new : DeviceRow) (h : new.equipment_type_id = none) :
    update_next_maintenance_date ets cur new = new := by
  unfold update_next_maintenance_date
  rw [h]

/-- Closed instance of `maintenance_null_type_frame`: a supplied
`next_maintenance_date` survives the trigger untouched. -/
theorem maintenance_null_type_frame_witness :
    update_next_maintenance_date [⟨0, 90⟩] 100
      { equipment_type_id := none, last_maintenance_date := some 1,
        next_maintenance_date := some 42 } =
      { equipment_type_id := none, last_maintenance_date := some 1,
        next_maintenance_date := some 42 } :=
  maintenance_null_type_frame [⟨0, 90⟩] 100
    { equipment_type_id := none, last_maintenance_date := some 1,
      next_maintenance_date := some 42 } rfl

/-- C2: whenever the device's equipment type resolves, the trigger stores
`(last_maintenance_date ?? CURRENT_DATE) + maintenance_interval_days` days
as the next maintenance date. -/
theorem next_maintenance_formula (ets : List EquipmentType) (cur : Int)
    (new : DeviceRow) (tid : Nat) (et : EquipmentType)
    (h1 : new.equipment_type_id = some tid) (h2 : etLookup ets tid = some et) :
    (update_next_maintenance_date ets cur new).next_maintenance_date =
      some (new.last_maintenance_date.getD cur + et.maintenance_interval_days) := by
  simp [update_next_maintenance_date, h1, h2]

/-- Closed instance of `next_maintenance_formula`: no last-maintenance date,
interval 90, evaluated on 2024-01-01, gives 2024-03-31. -/
theorem next_maintenance_formula_witness :
    (update_next_maintenance_date [⟨0, 90⟩] (daysFromCivil 2024 1 1)
      { equipment_type_id := some 0, last_maintenance_date := none,
        next_maintenance_date := none }).next_maintenance_date =
      some (daysFromCivil 2024 3 31) := by
  rw [next_maintenance_formula [⟨0, 90⟩] (daysFromCivil 2024 1 1)
    { equipment_type_id := some 0, last_maintenance_date := none,
      next_maintenance_date := none } 0 ⟨0, 90⟩ rfl (by decide)]
  decide

/-- C3: the escalation trigger sets priority to `urgent` exactly when urgency
is emergency or critical (otherwise priority is unchanged), and sets
`patient_impact` to true exactly when the department is critical (otherwise
`patient_impact` is unchanged). -/
theorem escalation_cases (ds : List Department) (r : RequestRow) :
    ((r.urgency_level = .emergency ∨ r.urgency_level = .critical) →
      (check_request_escalation ds r).priority = .urgent) ∧
    ((r.urgency_level ≠ .emergency ∧ r.urgency_level ≠ .critical) →
      (check_request_escalation ds r).priority = r.priority) ∧
    (deptIsCritical ds r.department_id = true →
      (check_request_escalation ds r).patient_impact = true) ∧
    (deptIsCritical ds r.department_id = false →
      (check_request_escalation ds r).patient_impact = r.patient_impact) := by
  obtain ⟨u, p, pi, did⟩ := r
  refine ⟨?_, ?_, ?_, ?_⟩ <;> intro h <;>
    simp only [check_request_escalation, setPatientImpact, escalatePriority] at * <;>
    repeat' split
  all_goals simp_all

/-- Closed instance of `escalation_cases`: a routine request from a critical
department keeps priority `high` and gains `patient_impact = true`. -/
theorem escalation_cases_witness :
    (check_request_escalation [⟨1, true⟩]
      { urgency_level := .routine, priority := .high, patient_impact := false,
        department_id := 1 }).priority = .high ∧
    (check_request_escalation [⟨1, true⟩]
      { urgency_level := .routine, priority := .high, patient_impact := false,
        department_id := 1 }).patient_impact = true :=
  ⟨(escalation_cases [⟨1, true⟩]
      { urgency_level := .routine, priority := .high, patient_impact := false,
        department_id := 1 }).2.1 ⟨by decide, by decide⟩,
   (escalation_cases [⟨1, true⟩]
      { urgency_level := .routine, priority := .high, patient_impact := false,
        department_id := 1 }).2.2.1 (by decide)⟩

/-- C5: escalation is monotone — the trigger never lowers priority on the
scale low < medium < high < urgent, and never resets `patient_impact` from
true to false. -/
theorem escalation_monotone (ds : List Department) (r : RequestRow) :
    r.priority.rank ≤ (check_request_escalation ds r).priority.rank ∧
    (r.patient_impact = true → (check_request_escalation ds r).patient_impact = true) := by
  obtain ⟨u, p, pi, did⟩ := r
  constructor
  · simp only [check_request_escalation, setPatientImpact, escalatePriority]
    repeat' split
    all_goals cases p <;> simp [Priority.rank]
  · intro h
    simp only [check_request_escalation, setPatientImpact, escalatePriority]
    repeat' split
    all_goals simp_all

/-- Closed instance of `escalation_monotone` on an emergency request whose
`patient_impact` is already true. -/
theorem escalation_monotone_witness :
    ({ urgency_level := .emergency, priority := .low, patient_impact := true,
       department_id := 2 } : RequestRow).priority.rank ≤
      (check_request_escalation []
        { urgency_level := .emergency, priority := .low, patient_impact := true,
          department_id := 2 }).priority.rank ∧
    (check_request_escalation []
      { urgency_level := .emergency, priority := .low, patient_impact := true,
        department_id := 2 }).patient_impact = true :=
  ⟨(escalation_monotone []
      { urgency_level := .emergency, priority := .low, patient_impact := true,
        department_id := 2 }).1,
   (escalation_monotone []
      { urgency_level := .emergency, priority := .low, patient_impact := true,
        department_id := 2 }).2 rfl⟩

/-- C6: the two escalation rules commute — applying the priority rule then
the patient-impact rule gives the same row as the reverse order, and the
trigger itself equals that common composite. -/
theorem escalation_rules_commute (ds : List Department) (r : RequestRow) :
    escalatePriority (setPatientImpact ds r) = setPatientImpact ds (escalatePriority r) ∧
    check_request_escalation ds r = setPatientImpact ds (escalatePriority r) := by
  obtain ⟨u, p, pi, did⟩ := r
  refine ⟨?_, rfl⟩
  simp only [escalatePriority, setPatientImpact]
  repeat' split
  all_goals simp_all

/-- C4 counterexample: with a maintenance interval of 0 the trigger does not
fail at all — it succeeds and stores the base date unchanged, so no
`InvalidConfiguration` error exists in the code. -/
theorem maintenance_zero_interval_no_error :
    (update_next_maintenance_date [⟨0, 0⟩] 738887
      { equipment_type_id := some 0, last_maintenance_date := none,
        next_maintenance_date := none }).next_maintenance_date = some 738887 := by
  decide

/-- C4 amended: the trigger raises no error for non-positive intervals; even
when `maintenance_interval_days ≤ 0` it succeeds and stores
base + interval days. -/
theorem maintenance_nonpositive_interval_succeeds (ets : List EquipmentType)
    (cur : Int) (new : DeviceRow) (tid : Nat) (et : EquipmentType)
    (h1 : new.equipment_type_id = some tid) (h2 : etLookup ets tid = some et)
    (h3 : et.maintenance_interval_days ≤ 0) :
    (update_next_maintenance_date ets cur new).next_maintenance_date =
      some (new.last_maintenance_date.getD cur + et.maintenance_interval_days) := by
  simp [update_next_maintenance_date, h1, h2]

/-- Closed instance of `maintenance_nonpositive_interval_succeeds` at
interval −5. -/
theorem maintenance_nonpositive_interval_succeeds_witness :
    (update_next_maintenance_date [⟨3, -5⟩] 1000
      { equipment_type_id := some 3, last_maintenance_date := some 200,
        next_maintenance_date := none }).next_maintenance_date = some 195 := by
  rw [maintenance_nonpositive_interval_succeeds [⟨3, -5⟩] 1000
    { equipment_type_id := some 3, last_maintenance_date := some 200,
      next_maintenance_date := none } 3 ⟨3, -5⟩ rfl (by decide) (by decide)]
  decide

/-- Lookup in an appended document: a binding in the right-hand (later) part
wins, otherwise the left-hand part is consulted — JS spread semantics. -/
theorem Doc.get_append (d s : Doc) (k : String) :
    (d ++ s).get k =
      match s.get k with
      | some v => some v
      | none => d.get k := by
  induction d with
  | nil =>
    show s.get k = _
    cases s.get k <;> rfl
  | cons kv rest ih =>
    obtain ⟨k', v⟩ := kv
    cases hs : s.get k <;> simp [Doc.get, ih, hs]

/-- C9: `createRequest` applies no escalation — the stored document carries
the caller-supplied `priority`, `urgencyLevel`, and `patientImpact` fields
unchanged, for every payload. -/
theorem createRequest_preserves_escalation_fields (p : Doc) (now : Int) :
    (createRequest p now).get "priority" = p.get "priority" ∧
    (createRequest p now).get "urgencyLevel" = p.get "urgencyLevel" ∧
    (createRequest p now).get "patientImpact" = p.get "patientImpact" := by
  refine ⟨?_, ?_, ?_⟩ <;> rw [createRequest, Doc.get_append] <;> rfl

/-- C10: every document stored by `createRequest` has status "pending",
overriding any status in the caller-supplied payload. -/
theorem createRequest_forces_pending (p : Doc) (now : Int) :
    (createRequest p now).get "status" = some (Value.str "pending") := by
  rw [createRequest, Doc.get_append]
  rfl

end HospitalIT
